import Mathlib

/-!
Shallow embedding of the `concurrent-containers` library
(`src/include/cds_array.h`, `src/include/cds_vector.h`,
`src/include/cds_lock_strategy.h`) and proofs about its
specification claims.

The embedding models:
* `cds_array<T, N>` as a length-indexed list (`cds_array` below) together
  with its bounds-checked accessors `at`/`operator[]`/`set` and the bulk
  operations `fill` and `swap`;
* `cds_vector<T, Allocator, LockStrategy>` as a record of the three raw
  cursors `start_`, `end_`, `end_of_storage_` (addresses as `Nat`, `0`
  playing the role of `nullptr`), an allocator identity, and the list of
  values stored in the constructed range `[start_, end_)`;
* the allocator-event traces (construct / destroy / deallocate) emitted by
  the throwing construction paths;
* the lock-acquisition order of `cds_array::swap` and a small two-thread
  transition system over it.

Exceptions become explicit result values, and undefined behaviour (reads
outside the constructed range) becomes an explicit `undefined` result.
-/

namespace CC

/-- Outcome of a bounds-checked (or, for `cds_vector::operator[]`,
unchecked) element access: a value, a thrown `std::out_of_range`
(the spec's BoundsError), or undefined behaviour. -/
inductive AccessResult (α : Type) where
  | ok (a : α)
  | boundsError
  | undefined
deriving DecidableEq

/-! ## Fixed array: `cds_array<T, N>` (src/include/cds_array.h) -/

/-- Model of `cds_array<T, N>`: a buffer of exactly `n` elements
(`T buffer_[N]`, line 277).  The lock member carries no element state and
is not modelled here. -/
structure cds_array (α : Type) (n : Nat) where
  buf : List α
  hlen : buf.length = n
deriving DecidableEq

/-- Translation of `static_assert(N, "cds_array does not support empty
arrays")` (cds_array.h line 19): the instantiation compiles exactly when
`N` converts to `true`, i.e. `N ≠ 0`. -/
def cds_array_static_assert (n : Nat) : Prop := n ≠ 0

instance (n : Nat) : Decidable (cds_array_static_assert n) := by
  unfold cds_array_static_assert; infer_instance

/-- `cds_array::size()` (line 269): `return N;`. -/
def cds_array.size {α : Type} {n : Nat} (_ : cds_array α n) : Nat := n

/-- `cds_array::max_size()` (line 274): `return N;`. -/
def cds_array.max_size {α : Type} {n : Nat} (_ : cds_array α n) : Nat := n

/-- `cds_array::empty()` (line 264): `return false;`. -/
def cds_array.empty {α : Type} {n : Nat} (_ : cds_array α n) : Bool := false

/-- The shared body of `cds_array::at` (lines 230-237), `operator[]`
(line 243), `scoped_read::at` (lines 100-106), `scoped_write::at`
(lines 58-64) and their `operator[]` wrappers: if `pos >= size()` throw
`std::out_of_range`, otherwise return `buffer_[pos]`. -/
def cds_array.atm {α : Type} {n : Nat} (a : cds_array α n) (pos : Nat) :
    AccessResult α :=
  if h : pos < n then .ok (a.buf.get ⟨pos, by rw [a.hlen]; exact h⟩)
  else .boundsError

/-- `cds_array::set(pos, value)` (lines 201-208): if `pos >= size()` throw
`std::out_of_range`, otherwise acquire the write lock and assign
`buffer_[pos] = value`. -/
def cds_array.set {α : Type} {n : Nat} (a : cds_array α n) (pos : Nat)
    (v : α) : AccessResult (cds_array α n) :=
  if pos < n then .ok ⟨a.buf.set pos v, by rw [List.length_set, a.hlen]⟩
  else .boundsError

/-- `cds_array::fill(val)` (lines 212-215): under the write lock,
`std::fill(begin(), end(), val)` assigns `val` to all `N` slots. -/
def cds_array.fill {α : Type} {n : Nat} (_ : cds_array α n) (v : α) :
    cds_array α n :=
  ⟨List.replicate n v, List.length_replicate ..⟩

/-- `cds_array::swap(other)` (lines 220-224): after locking both arrays,
`std::swap_ranges(begin(), end(), other.begin())` exchanges the two
buffers.  The result is `(self after, other after)`. -/
def cds_array.swapBufs {α : Type} {n : Nat} (a b : cds_array α n) :
    cds_array α n × cds_array α n :=
  (⟨b.buf, b.hlen⟩, ⟨a.buf, a.hlen⟩)

/-! ## Lock-acquisition order of `cds_array::swap` -/

/-- The order in which `cds_array::swap` acquires the two exclusive locks
(cds_array.h lines 221-222): first `new_scoped_write()` on `*this`, then
`other.new_scoped_write()` — always self before other, with no canonical
tie-break on identity. -/
def swapLockSeq (self other : Nat) : List Nat := [self, other]

/-- State of two threads concurrently executing `a.swap(b)` (thread 1) and
`b.swap(a)` (thread 2), where lock `0` belongs to container `a` and lock
`1` to container `b`.  `t1`/`t2` count the locks the thread has acquired
(`2` = swap finished, both guards released); `la`/`lb` give each lock's
owner (`0` = free, `1` = thread 1, `2` = thread 2). -/
structure SwapState where
  t1 : Fin 3
  t2 : Fin 3
  la : Fin 3
  lb : Fin 3
deriving DecidableEq

/-- One step of thread 1, which runs `a.swap(b)` and therefore acquires
locks in the order `swapLockSeq 0 1 = [0, 1]`: at pc `0` it blocks until
lock `0` is free and takes it; at pc `1` it blocks until lock `1` is free,
performs `swap_ranges`, and releases both guards.  `none` means the thread
is blocked (or already done). -/
def stepT1 (s : SwapState) : Option SwapState :=
  match s.t1 with
  | 0 => if s.la = 0 then some { s with t1 := 1, la := 1 } else none
  | 1 => if s.lb = 0 then some { s with t1 := 2, la := 0, lb := 0 } else none
  | _ => none

/-- One step of thread 2, which runs `b.swap(a)` and therefore acquires
locks in the order `swapLockSeq 1 0 = [1, 0]`. -/
def stepT2 (s : SwapState) : Option SwapState :=
  match s.t2 with
  | 0 => if s.lb = 0 then some { s with t2 := 1, lb := 2 } else none
  | 1 => if s.la = 0 then some { s with t2 := 2, la := 0, lb := 0 } else none
  | _ => none

/-- Initial state: neither thread has started, both locks free. -/
def swapInit : SwapState := ⟨0, 0, 0, 0⟩

/-- Interleaving reachability for the two concurrent swap calls. -/
inductive SwapReach : SwapState → Prop where
  | init : SwapReach swapInit
  | s1 {s s' : SwapState} : SwapReach s → stepT1 s = some s' → SwapReach s'
  | s2 {s s' : SwapState} : SwapReach s → stepT2 s = some s' → SwapReach s'

/-- A state is deadlocked when neither thread has finished its swap and
neither thread can take a step. -/
def SwapState.deadlocked (s : SwapState) : Prop :=
  s.t1 ≠ 2 ∧ s.t2 ≠ 2 ∧ stepT1 s = none ∧ stepT2 s = none

instance (s : SwapState) : Decidable s.deadlocked := by
  unfold SwapState.deadlocked; infer_instance

/-! ## Dynamic array: `cds_vector<T, Allocator, LockStrategy>`
(src/include/cds_vector.h)

Addresses are `Nat`, with `0` for `nullptr`.  An allocator is modelled by
its identity (a `Nat`), which is all `operator==` on allocators compares.
The values held in the constructed range `[start_, end_)` are carried as
the list `elems`.  Each allocating constructor takes the fresh address `p`
returned by `allocator_traits::allocate` as a parameter; the allocation it
made (or took over) is returned alongside the container as an
`Option (address × size)` so that ownership can be stated. -/

/-- Model of the `cds_vector` members `start_`, `end_`, `end_of_storage_`
and `allocator_` (cds_vector.h lines 244-248), plus the values living in
the constructed range `[start_, end_)`. -/
structure MVec (α : Type) where
  start_ : Nat
  end_ : Nat
  end_of_storage_ : Nat
  allocator_ : Nat
  elems : List α
deriving DecidableEq

/-- An allocation owned after construction: base address and size as
passed to `allocate` (to be returned verbatim to `deallocate`). -/
abbrev Alloc : Type := Nat × Nat

/-- `cds_vector::size()` (line 238): `return end_ - start_;`. -/
def MVec.size {α : Type} (v : MVec α) : Nat := v.end_ - v.start_

/-- `cds_vector::capacity()` (line 242): `return end_of_storage_ - start_;`. -/
def MVec.capacity {α : Type} (v : MVec α) : Nat :=
  v.end_of_storage_ - v.start_

/-- `cds_vector::empty()` (line 234): `return !(end_ - start_);`. -/
def MVec.empty {α : Type} (v : MVec α) : Bool := v.end_ - v.start_ == 0

/-- `cds_vector::operator[]` (line 230): `return *(start_ + pos);` — no
bounds check of any kind.  A read inside the constructed range yields
that element; any other read touches raw or unallocated memory and is
undefined behaviour. -/
def MVec.opIndex {α : Type} (v : MVec α) (pos : Nat) : AccessResult α :=
  match v.elems[pos]? with
  | some a => .ok a
  | none => .undefined

/-- Default constructor (lines 53-57): all three cursors `nullptr`, a
default-constructed allocator (identity `0`). -/
def cds_vector_default (α : Type) : MVec α × Option Alloc :=
  (⟨0, 0, 0, 0, []⟩, none)

/-- Allocator constructor (lines 61-65): all three cursors `nullptr`,
allocator `alloc`. -/
def cds_vector_with_alloc (α : Type) (al : Nat) : MVec α × Option Alloc :=
  (⟨0, 0, 0, al, []⟩, none)

/-- Count-value constructor (lines 72-84), success path: allocate `count`
slots at `p`, set `end_ = start_ + count`, `end_of_storage_ = end_`, then
`std::fill(start_, end_, value)` writes `value` into every slot. -/
def cds_vector_count_value (count : Nat) {α : Type} (value : α) (al p : Nat) :
    MVec α × Option Alloc :=
  (⟨p, p + count, p + count, al, List.replicate count value⟩, some (p, count))

/-- Count constructor (lines 90-107), success path: allocate `count` slots
at `p`, set `end_of_storage_ = start_ + count`, then default-construct
each slot in turn, advancing `end_`; `d` is the value produced by the
element type's default construction. -/
def cds_vector_count (count : Nat) {α : Type} (d : α) (al p : Nat) :
    MVec α × Option Alloc :=
  (⟨p, p + count, p + count, al, List.replicate count d⟩, some (p, count))

/-- Iterator-range constructor (lines 114-126), success path: `count =
distance(first, last)`, allocate `count` at `p`, `end_of_storage_ = start_
+ count`, `end_ = uninitialized_copy(first, last, start_)`.  The range's
contents are `xs`. -/
def cds_vector_range {α : Type} (xs : List α) (al p : Nat) :
    MVec α × Option Alloc :=
  (⟨p, p + xs.length, p + xs.length, al, xs⟩, some (p, xs.length))

/-- Copy constructor (lines 130-143), success path: the allocator comes
from `select_on_container_copy_construction` (modelled by the policy
function `pol` applied to the source's allocator identity); `size =
distance(other.start_, other.end_of_storage_)` — the source's capacity —
is allocated at `p`; `end_ = uninitialized_copy(other.start_, other.end_,
start_)` copies the source's live elements. -/
def cds_vector_copy {α : Type} (src : MVec α) (pol : Nat → Nat) (p : Nat) :
    MVec α × Option Alloc :=
  (⟨p, p + src.size, p + src.capacity, pol src.allocator_, src.elems⟩,
    some (p, src.capacity))

/-- Allocator-extended copy constructor (lines 148-159), translated
exactly as written: `size = distance(other.start_, other.end_of_storage_)`;
line 151 reads `std::allocator_traits<Allocator>::allocate(allocator_,
size);` — the returned pointer `p` is DISCARDED and `start_` is never
assigned, so `start_` keeps the indeterminate value `junk` it had before
the body ran; `end_of_storage_ = start_ + size` and `end_ =
uninitialized_copy(other.start_, other.end_, start_)` then use that
indeterminate pointer. -/
def cds_vector_copy_alloc {α : Type} (src : MVec α) (al junk p : Nat) :
    MVec α × Option Alloc :=
  (⟨junk, junk + src.size, junk + src.capacity, al, src.elems⟩,
    some (p, src.capacity))

/-- Move constructor (lines 164-168): `std::exchange` steals the three
cursors (source fields become `nullptr`) and the allocator is
move-constructed from the source's.  `blk` is the allocation the source
owned; ownership follows the cursors.  Result: `(new container with its
allocation, source after the move with its allocation)`. -/
def cds_vector_move {α : Type} (src : MVec α) (blk : Option Alloc) :
    (MVec α × Option Alloc) × (MVec α × Option Alloc) :=
  ((⟨src.start_, src.end_, src.end_of_storage_, src.allocator_, src.elems⟩,
    blk),
   (⟨0, 0, 0, src.allocator_, []⟩, none))

/-- Allocator-extended move constructor (lines 175-193): if `allocator_ ==
other.allocator_`, steal the cursors exactly as the plain move does;
otherwise `size = distance(other.start_, other.end_of_storage_)` slots are
allocated at `p`, `end_of_storage_ = start_ + size`, and `end_ =
uninitialized_copy(move_iterator(other.start_), move_iterator(other.end_),
start_)` moves the source's elements one by one; the source's cursors are
left untouched. -/
def cds_vector_move_alloc {α : Type} (src : MVec α) (blk : Option Alloc)
    (al p : Nat) : (MVec α × Option Alloc) × (MVec α × Option Alloc) :=
  if al = src.allocator_ then
    ((⟨src.start_, src.end_, src.end_of_storage_, al, src.elems⟩, blk),
     (⟨0, 0, 0, src.allocator_, []⟩, none))
  else
    ((⟨p, p + src.size, p + src.capacity, al, src.elems⟩,
      some (p, src.capacity)),
     (src, blk))

/-- Initializer-list constructor (lines 198-210), success path: `size =
init.size()`, allocate at `p`, `end_of_storage_ = start_ + size`, `end_ =
uninitialized_copy(init.begin(), init.end(), start_)`. -/
def cds_vector_init_list {α : Type} (xs : List α) (al p : Nat) :
    MVec α × Option Alloc :=
  (⟨p, p + xs.length, p + xs.length, al, xs⟩, some (p, xs.length))

/-! ## Destructor (lines 213-222) -/

/-- The destroy loop of `~cds_vector` (lines 214-216): `for (ptr = start_;
ptr != end_; ++ptr) destroy(allocator_, ptr);` — returns the addresses
destroyed, in execution order.  (The source loop never terminates when
`end_ < start_`; the guard below makes the model total, and every theorem
using it assumes `start_ ≤ end_`.) -/
def dtorDestroyLoop (ptr endp : Nat) : List Nat :=
  if endp ≤ ptr then [] else ptr :: dtorDestroyLoop (ptr + 1) endp
termination_by endp - ptr

/-- Addresses destroyed by `~cds_vector` for container `v`. -/
def cds_vector_dtor_destroys {α : Type} (v : MVec α) : List Nat :=
  dtorDestroyLoop v.start_ v.end_

/-- The deallocation performed by `~cds_vector` (lines 218-221): only when
`start_` is non-null, `deallocate(allocator_, start_, end_of_storage_ -
start_)`. -/
def cds_vector_dtor_dealloc {α : Type} (v : MVec α) : Option Alloc :=
  if v.start_ ≠ 0 then some (v.start_, v.end_of_storage_ - v.start_)
  else none

/-! ## Allocator-event trace of the count constructor (lines 90-107) -/

/-- An allocator event during construction, with slots named by their
index relative to `start_`: `construct i` is
`allocator_traits::construct(allocator_, start_ + i)` completing,
`destroy i` is `allocator_traits::destroy(allocator_, start_ + i)`, and
`dealloc n` is `deallocate(allocator_, start_, n)`. -/
inductive VEvent where
  | construct (i : Nat)
  | destroy (i : Nat)
  | dealloc (n : Nat)
deriving DecidableEq

/-- The construction loop of `cds_vector(count, alloc)` (lines 97-99):
slots are constructed at offsets `i, i+1, ...` until `rem` slots have been
built or a construction throws (`fails j = true`); returns the completed
`construct` events and the offset of the failed slot, if any. -/
def constructLoop (fails : Nat → Bool) : Nat → Nat → List VEvent × Option Nat
  | _, 0 => ([], none)
  | i, rem + 1 =>
    if fails i then ([], some i)
    else
      let r := constructLoop fails (i + 1) rem
      (.construct i :: r.1, r.2)

/-- The rollback loop of `cds_vector(count, alloc)` (lines 101-103):
`while (end_ != start_) destroy(allocator_, end_--);` — entered with
`end_ = start_ + k` when the construction of slot `k` threw.  The
post-decrement destroys the slot `end_` currently points at, so the
offsets destroyed are `k, k-1, ..., 1`. -/
def rollbackDestroys : Nat → List Nat
  | 0 => []
  | k + 1 => (k + 1) :: rollbackDestroys k

/-- Full allocator-event trace of `cds_vector(count, alloc)` (lines
90-107) with per-slot construction outcomes `fails`: on success the
`count` construct events; on a failure at slot `k` the completed
constructs, then the rollback destroys, then `deallocate(allocator_,
start_, count)`, and the exception propagates (`false`). -/
def cds_vector_count_events (count : Nat) (fails : Nat → Bool) :
    List VEvent × Bool :=
  match constructLoop fails 0 count with
  | (evs, none) => (evs, true)
  | (evs, some k) =>
    (evs ++ (rollbackDestroys k).map .destroy ++ [.dealloc count], false)

/-! ## Cursor invariant (spec §3, claim C7) -/

/-- The storage part of the cursor invariant: the buffer coincides with
the owned allocation — `start_` is the allocated address and
`end_of_storage_` its one-past-the-end — or, when no allocation is owned,
all three cursors are `nullptr`. -/
def blkInv {α : Type} (v : MVec α) : Option Alloc → Prop
  | some pn => v.start_ = pn.1 ∧ v.end_of_storage_ = pn.1 + pn.2
  | none => v.start_ = 0 ∧ v.end_ = 0 ∧ v.end_of_storage_ = 0

instance {α : Type} (v : MVec α) :
    (blk : Option Alloc) → Decidable (blkInv v blk)
  | some _ => by unfold blkInv; infer_instance
  | none => by unfold blkInv; infer_instance

/-- The Dynamic Array cursor invariant, for a container together with the
allocation it owns: `start_ ≤ end_ ≤ end_of_storage_`; the constructed
range `[start_, end_)` holds exactly the live values `elems`; and the
buffer coincides with the owned allocation (`blkInv`). -/
def MVecInv {α : Type} (v : MVec α) (blk : Option Alloc) : Prop :=
  v.start_ ≤ v.end_ ∧ v.end_ ≤ v.end_of_storage_ ∧
  v.elems.length = v.end_ - v.start_ ∧ blkInv v blk

instance {α : Type} (v : MVec α) (blk : Option Alloc) :
    Decidable (MVecInv v blk) := by
  unfold MVecInv; infer_instance

/-! ## Helper lemmas -/

/-- The destructor's destroy loop visits exactly the addresses
`ptr, ptr+1, ..., endp-1`, in increasing order. -/
theorem dtorDestroyLoop_eq_range (ptr endp : Nat) :
    dtorDestroyLoop ptr endp = List.range' ptr (endp - ptr) := by
  have key : ∀ n ptr endp, endp - ptr = n →
      dtorDestroyLoop ptr endp = List.range' ptr n := by
    intro n
    induction n with
    | zero =>
      intro ptr endp h
      rw [dtorDestroyLoop]
      simp [Nat.le_of_sub_eq_zero h]
    | succ k ih =>
      intro ptr endp h
      have hlt : ¬ endp ≤ ptr := by omega
      rw [dtorDestroyLoop, if_neg hlt, ih (ptr + 1) endp (by omega)]
      rfl
  exact key _ ptr endp rfl

/-! ## Claim theorems -/

/-- C1: the claim says that when the k-th construction of a bulk
constructor fails, the previously constructed elements at positions
`[0, k)` are destroyed in reverse order.  Evaluating the default-fill
constructor `cds_vector(count, alloc)` at the failing input `count = 2`
with the construction of slot `1` throwing shows the rollback loop
`while (end_ != start_) destroy(allocator_, end_--)` destroys slot `1` —
the slot whose construction failed and which was never constructed — and
never destroys slot `0`, the one live element: the trace is
`[construct 0, destroy 1, dealloc 2]` instead of the claimed
`[construct 0, destroy 0, dealloc 2]`. -/
theorem c1_count_ctor_rollback_destroys_wrong_slots :
    cds_vector_count_events 2 (fun i => i == 1) =
      ([.construct 0, .destroy 1, .dealloc 2], false) ∧
    VEvent.destroy 0 ∉ (cds_vector_count_events 2 (fun i => i == 1)).1 ∧
    VEvent.construct 1 ∉ (cds_vector_count_events 2 (fun i => i == 1)).1 := by
  decide

/-- C2: the claim says both copy constructors produce a container whose
new allocation holds copies of the source's elements.  Evaluating the
allocator-extended copy constructor `cds_vector(other, alloc)` on a
one-element source shows line 151 discards the pointer returned by
`allocate` and never assigns `start_`: with the fresh allocation at
address `100` and the indeterminate prior value `7` in `start_`, the
constructed container's buffer starts at `7`, not at the allocation, and
its destructor would deallocate `(7, 1)` rather than the block `(100, 1)`
that was actually allocated — the allocation leaks and the elements are
written through an indeterminate pointer. -/
theorem c2_copy_alloc_ctor_ignores_its_allocation :
    cds_vector_copy_alloc (⟨1, 2, 2, 0, [42]⟩ : MVec Nat) 5 7 100 =
      (⟨7, 8, 8, 5, [42]⟩, some (100, 1)) ∧
    (cds_vector_copy_alloc (⟨1, 2, 2, 0, [42]⟩ : MVec Nat) 5 7 100).1.start_
      ≠ 100 ∧
    cds_vector_dtor_dealloc
        (cds_vector_copy_alloc (⟨1, 2, 2, 0, [42]⟩ : MVec Nat) 5 7 100).1 =
      some (7, 1) := by
  decide

/-- C3: the claim says every element read on every container fails with a
BoundsError when `pos ≥ size`, even on an empty container.  Evaluating
the Dynamic Array's only element read, `operator[]` (cds_vector.h line
230, `return *(start_ + pos);`), on a default-constructed (empty) vector
at position `0` shows there is no check at all: the access dereferences
the null `start_` — undefined behaviour — instead of raising a
BoundsError. -/
theorem c3_vector_op_index_has_no_bounds_check :
    (cds_vector_default Nat).1.size = 0 ∧
    (cds_vector_default Nat).1.opIndex 0 = .undefined ∧
    (cds_vector_default Nat).1.opIndex 0 ≠ .boundsError := by
  decide

/-- C5: the claim says concurrent `swap` calls never deadlock because the
two exclusive locks are acquired in a canonical order independent of
which container initiates the call.  The source (cds_array.h lines
221-222) always locks `self` first and `other` second, so the two call
orders acquire the pair in opposite orders, and the two-thread
interleaving in which thread 1 (running `a.swap(b)`) takes lock `a` and
thread 2 (running `b.swap(a)`) takes lock `b` reaches a state in which
neither thread has finished and neither can step: a deadlock. -/
theorem c5_swap_self_first_locking_deadlocks :
    swapLockSeq 0 1 = [0, 1] ∧ swapLockSeq 1 0 = [1, 0] ∧
    swapLockSeq 0 1 ≠ swapLockSeq 1 0 ∧
    SwapReach ⟨1, 1, 1, 2⟩ ∧ SwapState.deadlocked ⟨1, 1, 1, 2⟩ := by
  refine ⟨rfl, rfl, by decide, ?_, by decide⟩
  have h1 : stepT1 swapInit = some ⟨1, 0, 1, 0⟩ := by decide
  have h2 : stepT2 (⟨1, 0, 1, 0⟩ : SwapState) = some ⟨1, 1, 1, 2⟩ := by decide
  exact SwapReach.s2 (SwapReach.s1 SwapReach.init h1) h2

/-- C6: the destructor destroys exactly the addresses of the live range
`[start_, end_)`, in increasing index order, and then — only when the
container owns an allocation (`start_` non-null) — deallocates with size
`end_of_storage_ - start_`, the original allocation size (the capacity). -/
theorem c6_dtor_destroys_live_range_then_deallocates {α : Type}
    (v : MVec α) (h : v.start_ ≤ v.end_) :
    cds_vector_dtor_destroys v = List.range' v.start_ v.size ∧
    cds_vector_dtor_dealloc v =
      (if v.start_ = 0 then none else some (v.start_, v.capacity)) := by
  constructor
  · exact dtorDestroyLoop_eq_range v.start_ v.end_
  · unfold cds_vector_dtor_dealloc MVec.capacity
    by_cases h0 : v.start_ = 0 <;> simp [h0]

/-- Witness for C6 at the concrete container with `start_ = 5`,
`end_ = 8`, `end_of_storage_ = 9` holding `[1, 2, 3]`. -/
theorem c6_witness :
    cds_vector_dtor_destroys (⟨5, 8, 9, 0, [1, 2, 3]⟩ : MVec Nat) =
      List.range' 5 3 ∧
    cds_vector_dtor_dealloc (⟨5, 8, 9, 0, [1, 2, 3]⟩ : MVec Nat) =
      some (5, 4) := by
  have h := c6_dtor_destroys_live_range_then_deallocates
    (⟨5, 8, 9, 0, [1, 2, 3]⟩ : MVec Nat) (by decide)
  exact ⟨h.1, by simpa using h.2⟩

/-- C8: the plain move constructor steals the three cursors, the
allocator and (with them) the owned allocation and elements from the
source, and leaves the source with all cursors null: no allocation,
size 0, capacity 0, empty. -/
theorem c8_plain_move_steals_cursors_and_empties_source {α : Type}
    (src : MVec α) (blk : Option Alloc) :
    (cds_vector_move src blk).1 = (src, blk) ∧
    (cds_vector_move src blk).2.1 =
      (⟨0, 0, 0, src.allocator_, []⟩ : MVec α) ∧
    (cds_vector_move src blk).2.2 = none ∧
    (cds_vector_move src blk).2.1.size = 0 ∧
    (cds_vector_move src blk).2.1.capacity = 0 ∧
    (cds_vector_move src blk).2.1.empty = true := by
  refine ⟨?_, rfl, rfl, rfl, rfl, rfl⟩
  show ((⟨src.start_, src.end_, src.end_of_storage_, src.allocator_,
    src.elems⟩ : MVec α), blk) = (src, blk)
  rfl

/-- C4: the allocator-extended move constructor compares the supplied
allocator with the source's: when they are equal it behaves exactly as
the plain move constructor (ownership stolen, source left empty); when
they differ it moves the elements one by one into a newly allocated
block whose size equals the source's constructed length (the source's
`capacity`, which in every constructed container equals its `size` —
the hypothesis), takes the supplied allocator, and leaves the source's
cursors untouched (allocator-valid, not necessarily empty). -/
theorem c4_move_alloc_ctor_steals_or_rebuilds {α : Type} (src : MVec α)
    (blk : Option Alloc) (al p : Nat) (hcap : src.capacity = src.size) :
    (al = src.allocator_ →
      cds_vector_move_alloc src blk al p = cds_vector_move src blk) ∧
    (al ≠ src.allocator_ →
      (cds_vector_move_alloc src blk al p).1.1.elems = src.elems ∧
      (cds_vector_move_alloc src blk al p).1.1.size = src.size ∧
      (cds_vector_move_alloc src blk al p).1.1.capacity = src.size ∧
      (cds_vector_move_alloc src blk al p).1.1.allocator_ = al ∧
      (cds_vector_move_alloc src blk al p).1.2 = some (p, src.size) ∧
      (cds_vector_move_alloc src blk al p).2 = (src, blk)) := by
  constructor
  · intro he
    subst he
    unfold cds_vector_move_alloc cds_vector_move
    simp
  · intro hne
    unfold cds_vector_move_alloc
    rw [if_neg hne]
    refine ⟨rfl, ?_, ?_, rfl, by rw [hcap], rfl⟩
    · show p + src.size - p = src.size
      omega
    · show p + src.capacity - p = src.size
      omega

/-- Witness for C4 at a one-element source with allocator `0`, owned
block `(1, 1)`, exercising both the equal-allocator branch (`al = 0`)
and the unequal branch (`al = 3`, fresh block at `100`). -/
theorem c4_witness :
    cds_vector_move_alloc (⟨1, 2, 2, 0, [42]⟩ : MVec Nat) (some (1, 1))
        0 100 =
      cds_vector_move (⟨1, 2, 2, 0, [42]⟩ : MVec Nat) (some (1, 1)) ∧
    (cds_vector_move_alloc (⟨1, 2, 2, 0, [42]⟩ : MVec Nat) (some (1, 1))
        3 100).1.1.elems = [42] := by
  constructor
  · exact (c4_move_alloc_ctor_steals_or_rebuilds
      (⟨1, 2, 2, 0, [42]⟩ : MVec Nat) (some (1, 1)) 0 100 (by decide)).1 rfl
  · exact ((c4_move_alloc_ctor_steals_or_rebuilds
      (⟨1, 2, 2, 0, [42]⟩ : MVec Nat) (some (1, 1)) 3 100
      (by decide)).2 (by decide)).1

/-- C9: on the Fixed Array, for every in-bounds position `pos < size`,
`set(pos, v)` succeeds, reading position `pos` afterwards (through `at`,
`operator[]`, `get`, or a scoped accessor — they share one body) returns
`v`, and every other slot reads exactly as before the `set`. -/
theorem c9_array_set_then_get_roundtrip {α : Type} {n : Nat}
    (a : cds_array α n) (pos : Nat) (v : α) (h : pos < n) :
    ∃ a', a.set pos v = .ok a' ∧ a'.atm pos = .ok v ∧
      ∀ q, q ≠ pos → a'.atm q = a.atm q := by
  refine ⟨⟨a.buf.set pos v, by rw [List.length_set, a.hlen]⟩, ?_, ?_, ?_⟩
  · unfold cds_array.set
    rw [if_pos h]
  · unfold cds_array.atm
    rw [dif_pos h]
    have hlen : pos < (a.buf.set pos v).length := by
      rw [List.length_set, a.hlen]; exact h
    simp [List.get_eq_getElem, List.getElem_set_self]
  · intro q hq
    unfold cds_array.atm
    by_cases hqn : q < n
    · rw [dif_pos hqn, dif_pos hqn]
      simp [List.get_eq_getElem, List.getElem_set_ne (Ne.symm hq)]
    · rw [dif_neg hqn, dif_neg hqn]

/-- Witness for C9: setting position `0` of the two-element array
`[10, 20]` to `5`. -/
theorem c9_witness :
    ∃ a', (⟨[10, 20], rfl⟩ : cds_array Nat 2).set 0 5 = .ok a' ∧
      a'.atm 0 = .ok 5 ∧
      ∀ q, q ≠ 0 → a'.atm q = (⟨[10, 20], rfl⟩ : cds_array Nat 2).atm q :=
  c9_array_set_then_get_roundtrip (⟨[10, 20], rfl⟩ : cds_array Nat 2) 0 5
    (by decide)

/-- C10: instantiating `cds_array<T, N>` is rejected by the
`static_assert` exactly when `N = 0`; on every instance `empty()` is
`false` and `size() = max_size() = N`; and no operation changes the
element count: `fill`, `swap` and a successful `set` all yield arrays of
exactly `n` elements. -/
theorem c10_fixed_array_count_is_immutable (α : Type) :
    ¬ cds_array_static_assert 0 ∧
    (∀ n, cds_array_static_assert n ↔ 1 ≤ n) ∧
    (∀ n (a : cds_array α n),
      a.empty = false ∧ a.size = n ∧ a.max_size = n) ∧
    (∀ n (a : cds_array α n) v, (a.fill v).size = n) ∧
    (∀ n (a b : cds_array α n),
      (cds_array.swapBufs a b).1.size = n ∧
      (cds_array.swapBufs a b).2.size = n) ∧
    (∀ n (a : cds_array α n) pos v a',
      a.set pos v = .ok a' → a'.size = n) := by
  refine ⟨?_, ?_, ?_, ?_, ?_, ?_⟩
  · intro h; exact h rfl
  · intro n
    unfold cds_array_static_assert
    omega
  · intro n a; exact ⟨rfl, rfl, rfl⟩
  · intro n a v; rfl
  · intro n a b; exact ⟨rfl, rfl⟩
  · intro n a pos v a' _; rfl

/-- Witness for C10: a successful `set` on a one-element array keeps the
element count at `1`. -/
theorem c10_witness :
    (⟨[2], rfl⟩ : cds_array Nat 1).size = 1 :=
  (c10_fixed_array_count_is_immutable Nat).2.2.2.2.2 1
    (⟨[1], rfl⟩ : cds_array Nat 1) 0 2 (⟨[2], rfl⟩ : cds_array Nat 1)
    (by decide)

/-- C7, counterexample: the claim that every Dynamic Array operation
establishes the cursor invariant fails for the allocator-extended copy
constructor.  Copying the valid one-element container (whose invariant
holds for its block `(1, 1)`) with allocator `5` produces — because line
151 discards the pointer returned by `allocate`, here `100`, and leaves
`start_` at its indeterminate prior value, here `7` — a container whose
buffer does not coincide with the allocation it owns: the invariant does
not hold. -/
theorem c7_counterexample_copy_alloc_breaks_invariant :
    MVecInv (⟨1, 2, 2, 0, [42]⟩ : MVec Nat) (some (1, 1)) ∧
    ¬ MVecInv
        (cds_vector_copy_alloc (⟨1, 2, 2, 0, [42]⟩ : MVec Nat) 5 7 100).1
        (cds_vector_copy_alloc (⟨1, 2, 2, 0, [42]⟩ : MVec Nat) 5 7 100).2 := by
  decide

/-- C7 (amended): every Dynamic Array constructor EXCEPT the
allocator-extended copy constructor establishes the cursor invariant —
`start_ ≤ end_ ≤ end_of_storage_`, the constructed range `[start_, end_)`
holds exactly the live values, and the buffer coincides with the owned
allocation (all cursors null when none is owned); the copy and move
constructors preserve it from their source, and the move constructors
also leave the residual source satisfying it.  Moreover `size()` and
`capacity()` report the distances `end_ - start_` and
`end_of_storage_ - start_`. -/
theorem c7_cursor_invariant_amended (α : Type) :
    MVecInv (cds_vector_default α).1 (cds_vector_default α).2 ∧
    (∀ al, MVecInv (cds_vector_with_alloc α al).1
      (cds_vector_with_alloc α al).2) ∧
    (∀ count (value : α) al p,
      MVecInv (cds_vector_count_value count value al p).1
        (cds_vector_count_value count value al p).2) ∧
    (∀ count (d : α) al p,
      MVecInv (cds_vector_count count d al p).1
        (cds_vector_count count d al p).2) ∧
    (∀ (xs : List α) al p,
      MVecInv (cds_vector_range xs al p).1 (cds_vector_range xs al p).2) ∧
    (∀ (xs : List α) al p,
      MVecInv (cds_vector_init_list xs al p).1
        (cds_vector_init_list xs al p).2) ∧
    (∀ (src : MVec α) blk pol p, MVecInv src blk →
      MVecInv (cds_vector_copy src pol p).1 (cds_vector_copy src pol p).2) ∧
    (∀ (src : MVec α) blk, MVecInv src blk →
      MVecInv (cds_vector_move src blk).1.1 (cds_vector_move src blk).1.2 ∧
      MVecInv (cds_vector_move src blk).2.1 (cds_vector_move src blk).2.2) ∧
    (∀ (src : MVec α) blk al p, MVecInv src blk →
      MVecInv (cds_vector_move_alloc src blk al p).1.1
        (cds_vector_move_alloc src blk al p).1.2 ∧
      MVecInv (cds_vector_move_alloc src blk al p).2.1
        (cds_vector_move_alloc src blk al p).2.2) ∧
    (∀ v : MVec α, v.size = v.end_ - v.start_ ∧
      v.capacity = v.end_of_storage_ - v.start_ ∧
      v.empty = (v.size == 0)) := by
  have hnull : MVecInv (⟨0, 0, 0, 0, []⟩ : MVec α) none := by
    exact ⟨Nat.le_refl 0, Nat.le_refl 0, rfl, rfl, rfl, rfl⟩
  refine ⟨hnull, ?_, ?_, ?_, ?_, ?_, ?_, ?_, ?_, ?_⟩
  · intro al
    exact ⟨Nat.le_refl 0, Nat.le_refl 0, rfl, rfl, rfl, rfl⟩
  · intro count value al p
    refine ⟨?_, ?_, ?_, rfl, rfl⟩
    · show p ≤ p + count
      omega
    · show p + count ≤ p + count
      omega
    · show (List.replicate count value).length = p + count - p
      rw [List.length_replicate]
      omega
  · intro count d al p
    refine ⟨?_, ?_, ?_, rfl, rfl⟩
    · show p ≤ p + count
      omega
    · show p + count ≤ p + count
      omega
    · show (List.replicate count d).length = p + count - p
      rw [List.length_replicate]
      omega
  · intro xs al p
    refine ⟨?_, ?_, ?_, rfl, rfl⟩
    · show p ≤ p + xs.length
      omega
    · show p + xs.length ≤ p + xs.length
      omega
    · show xs.length = p + xs.length - p
      omega
  · intro xs al p
    refine ⟨?_, ?_, ?_, rfl, rfl⟩
    · show p ≤ p + xs.length
      omega
    · show p + xs.length ≤ p + xs.length
      omega
    · show xs.length = p + xs.length - p
      omega
  · intro src blk pol p hsrc
    obtain ⟨h1, h2, h3, _⟩ := hsrc
    have hsz : src.size ≤ src.capacity := by
      unfold MVec.size MVec.capacity
      omega
    refine ⟨?_, ?_, ?_, rfl, rfl⟩
    · show p ≤ p + src.size
      omega
    · show p + src.size ≤ p + src.capacity
      omega
    · show src.elems.length = p + src.size - p
      unfold MVec.size at *
      omega
  · intro src blk hsrc
    constructor
    · have hres : (cds_vector_move src blk).1 = (src, blk) := by
        show ((⟨src.start_, src.end_, src.end_of_storage_, src.allocator_,
          src.elems⟩ : MVec α), blk) = (src, blk)
        rfl
      rw [hres]
      exact hsrc
    · exact hnull
  · intro src blk al p hsrc
    by_cases he : al = src.allocator_
    · unfold cds_vector_move_alloc
      rw [if_pos he]
      constructor
      · have heq : (⟨src.start_, src.end_, src.end_of_storage_, al,
          src.elems⟩ : MVec α) =
            { src with allocator_ := al } := rfl
        rw [heq]
        obtain ⟨h1, h2, h3, h4⟩ := hsrc
        exact ⟨h1, h2, h3, h4⟩
      · exact hnull
    · unfold cds_vector_move_alloc
      rw [if_neg he]
      have h1 := hsrc.1
      have h2 := hsrc.2.1
      have h3 := hsrc.2.2.1
      have hsz : src.size ≤ src.capacity := by
        unfold MVec.size MVec.capacity
        omega
      refine ⟨⟨?_, ?_, ?_, rfl, rfl⟩, hsrc⟩
      · show p ≤ p + src.size
        omega
      · show p + src.size ≤ p + src.capacity
        omega
      · show src.elems.length = p + src.size - p
        unfold MVec.size at *
        omega
  · intro v
    exact ⟨rfl, rfl, rfl⟩

/-- Witness for C7 (amended): the copy constructor and the
allocator-extended move constructor, applied to the valid one-element
container with block `(1, 1)`, establish the invariant at the fresh
allocation `100`. -/
theorem c7_witness :
    MVecInv (cds_vector_copy (⟨1, 2, 2, 0, [42]⟩ : MVec Nat) id 100).1
      (cds_vector_copy (⟨1, 2, 2, 0, [42]⟩ : MVec Nat) id 100).2 ∧
    MVecInv
      (cds_vector_move_alloc (⟨1, 2, 2, 0, [42]⟩ : MVec Nat) (some (1, 1))
        3 100).1.1
      (cds_vector_move_alloc (⟨1, 2, 2, 0, [42]⟩ : MVec Nat) (some (1, 1))
        3 100).1.2 := by
  obtain ⟨_, _, _, _, _, _, hcopy, _, hmovea, _⟩ :=
    c7_cursor_invariant_amended Nat
  exact ⟨hcopy (⟨1, 2, 2, 0, [42]⟩ : MVec Nat) (some (1, 1)) id 100
      (by decide),
    (hmovea (⟨1, 2, 2, 0, [42]⟩ : MVec Nat) (some (1, 1)) 3 100
      (by decide)).1⟩

end CC
